import Mathlib

/-!
Shallow embedding of the conversion pipeline of `src/app.py` (repository
`pdfaraby`): the `/convert` orchestrator (`Convert.post`), the Redis result
cache (`get_cached_result` / `set_cached_result`), the post-processor
(`apply_rtl_to_docx`), the stats endpoint (`Stats.get`), the retention
sweeper (`delete_old_files`) and the Flask error handlers.

Modelling conventions:
- Python exceptions are modelled by `Except`: a raised exception carries an
  `Exc` value; `Convert.post`'s `try`/`except Exception` block is the
  `tryBody` / `exceptClause` split in `convertPost`.  Werkzeug's
  `HTTPException` (raised by `api.abort`) is an ordinary `Exception`
  subclass, hence `Exc.httpAbort` flows through the same `Except` channel
  and IS caught by the blanket handler, exactly as in CPython.
- The filesystem (upload and converted folders) and the Redis store are
  explicit fields of `SysState`; `os.path.exists` on the converted folder is
  list membership.
- Environment facts fixed for the lifetime of one request (library
  availability flags computed at import time, the uuid-suffixed safe name
  produced by `clean_filename`, the md5 digest function, the behaviour of
  the external conversion engines and of the Redis connection) are fields of
  `World`.
- `SysState.statsLog` records one `(success, engine)` pair per
  `update_stats` call, in call order (the total/failure counters increment
  at the top of the function, before anything can raise).  `update_stats`
  itself is fallible: `conversion_stats['engine_usage'][engine] += 1`
  (app.py line 250) raises `KeyError` when `engine` is not one of the six
  `engine_usage` keys — notably for the `'unknown'` used on validation
  paths.  An exception raised inside the `except Exception` clause itself
  escapes `Convert.post` (`Outcome.unhandled`); flask-restx's error router
  then answers with a 500 response carrying its own fixed generic body.
-/

/-- Allowed upload extensions, `ALLOWED_EXTENSIONS` in `app.py` (line 76). -/
def ALLOWED_EXTENSIONS : List String := ["pdf", "png", "jpg", "jpeg"]

/-- Splitting a character list at every dot (the char-list counterpart of
Python `split('.')`, so that the definitions below compute inside the
kernel). -/
def splitDots : List Char → List (List Char)
  | [] => [[]]
  | c :: cs =>
      if c = '.' then [] :: splitDots cs
      else
        match splitDots cs with
        | [] => [[c]]
        | g :: gs => (c :: g) :: gs

/-- ASCII lowercasing of one character (extensions are ASCII, so this matches
Python `str.lower()` on them). -/
def lowerChar (c : Char) : Char :=
  if 65 ≤ c.toNat ∧ c.toNat ≤ 90 then Char.ofNat (c.toNat + 32) else c

/-- Whether a filename contains a dot: Python `'.' in filename`. -/
def hasDot (filename : String) : Bool :=
  filename.data.any (fun c => c = '.')

/-- Text after the last dot of a filename: `filename.rsplit('.', 1)[1]`
(meaningful when the name contains a dot). -/
def extOf (filename : String) : String :=
  String.mk ((splitDots filename.data).getLastD [])

/-- `allowed_file` (app.py lines 115-117):
`'.' in filename and filename.rsplit('.', 1)[1].lower() in ALLOWED_EXTENSIONS`. -/
def allowed_file (filename : String) : Bool :=
  hasDot filename &&
    decide (String.mk ((extOf filename).data.map lowerChar) ∈ ALLOWED_EXTENSIONS)

/-- Text before the last dot: `s.rsplit('.', 1)[0]` (the whole string when
there is no dot), used to derive `docx_filename` (app.py line 471). -/
def stripExt (s : String) : String :=
  if hasDot s then String.mk (List.intercalate ['.'] ((splitDots s.data).dropLast))
  else s

/-- A Python exception value, as far as the pipeline can distinguish them:
`httpAbort` is the werkzeug `HTTPException` raised by `api.abort`;
`cacheError` is an exception raised by the Redis client; `keyError` is the
`KeyError` that `update_stats` raises at app.py line 250 when `engine` is
not a key of `conversion_stats['engine_usage']`; `other` is any other
exception (engine failures, wrapped engine failures, ...). -/
inductive Exc where
  | httpAbort (code : Nat) (msg : String)
  | cacheError (detail : String)
  | keyError (key : String)
  | other (detail : String)
  deriving DecidableEq, Repr

/-- `str(e)` as used by `api.abort(500, str(e))` (app.py line 588) and by the
error handlers.  For an `HTTPException`, `str` yields "code name: description";
the model keeps code and message.  (Python renders `str(KeyError(k))` with
quotation marks around `k`; the model keeps the bare key — no theorem ever
observes this text, since a KeyError that reaches the except clause makes
the clause raise again before `str(e)` is used.) -/
def excStr : Exc → String
  | .httpAbort code msg => toString code ++ " " ++ msg
  | .cacheError d => d
  | .keyError k => k
  | .other d => d

/-- Outcome of one external engine invocation: it either returns (having
written the output file or not) or raises with some detail text. -/
inductive EngineOutcome where
  | ok (wrote : Bool)
  | raise (detail : String)
  deriving DecidableEq, Repr

/-- Redis entries as (key, value, expiry-time) triples; `SETEX key ttl v`
stores expiry `now + ttl` and `GET` sees the key only strictly before it. -/
abbrev CacheEntry := String × String × Nat

/-- Mutable state touched by one `/convert` request. -/
structure SysState where
  /-- One entry per `update_stats` call: (success flag, engine argument). -/
  statsLog : List (Bool × String)
  /-- Filenames currently present in `UPLOAD_FOLDER`. -/
  uploads : List String
  /-- Filenames currently present in `CONVERTED_FOLDER`. -/
  converted : List String
  /-- Live Redis entries. -/
  cache : List CacheEntry
  /-- One entry per engine invocation, recording which engine ran. -/
  engineCalls : List String
  /-- One entry per `apply_rtl_to_docx` call, recording its returned Bool. -/
  rtlLog : List Bool
  deriving DecidableEq, Repr

/-- Per-process environment for one request. -/
structure World where
  /-- `PDF2DOCX_AVAILABLE` (app.py line 85). -/
  pdf2docx : Bool
  /-- `ASPOSE_AVAILABLE` (app.py line 103). -/
  aspose : Bool
  /-- `cache_available and redis_client` as established at startup
  (app.py lines 163-179): when false, both cache helpers short-circuit. -/
  cacheAvail : Bool
  /-- When `some d`, `redis_client.get` raises an exception with text `d`
  (the backend went away after startup). -/
  redisGetFail : Option String
  /-- When `some d`, `redis_client.setex` raises an exception with text `d`. -/
  redisSetFail : Option String
  /-- Current wall-clock time in seconds. -/
  now : Nat
  /-- Result of `clean_filename(file.filename)` for this request (it embeds
  a fresh uuid, so it is request-specific). -/
  safeName : String
  /-- `get_file_hash`: the md5 digest of the saved upload's bytes. -/
  fileHash : List Nat → String
  /-- Behaviour of each concrete engine ("pdf2docx" or "aspose") on this
  request's input. -/
  engineRun : String → EngineOutcome
  /-- When `some d`, the body of `apply_rtl_to_docx` raises internally with
  text `d` (e.g. the produced file cannot be reopened). -/
  rtlExc : Option String

/-- An uploaded file part: `request.files['file']`. -/
structure UploadedFile where
  filename : String
  content : List Nat
  deriving DecidableEq, Repr

/-- A `/convert` request: optional file part and optional `engine` form
field. -/
structure ConvReq where
  filePart : Option UploadedFile
  engineField : Option String
  deriving DecidableEq, Repr

/-- The dict returned by `Convert.post` on success (app.py lines 461-468 and
572-580; `processing_time` is omitted as time values are not modelled). -/
structure ConvertResponse where
  success : Bool
  message : String
  filename : String
  engine_used : String
  download_url : String
  cached : Bool
  deriving DecidableEq, Repr

/-- HTTP-level outcome of one request: a 200 JSON body, an abort with a
status code and message, or an exception that escapes `Convert.post`
uncaught (one raised inside the `except Exception` clause itself).  In the
last case flask-restx's error router produces a 500 response with its own
fixed generic body, independent of the exception — an internal-error
outcome whose body is none of the `api.abort` messages. -/
inductive Outcome where
  | ok (r : ConvertResponse)
  | abort (code : Nat) (msg : String)
  | unhandled (e : Exc)
  deriving DecidableEq, Repr

/-- Redis `GET key` at time `now`: first live entry for the key. -/
def redisGet (cache : List CacheEntry) (key : String) (now : Nat) : Option String :=
  match cache.find? (fun e => e.1 == key && decide (now < e.2.2)) with
  | some e => some e.2.1
  | none => none

/-- Redis `SETEX key ttl value` at time `now`: overwrite the key with expiry
`now + ttl`. -/
def redisSetex (cache : List CacheEntry) (key value : String) (ttl now : Nat) :
    List CacheEntry :=
  (key, value, now + ttl) :: cache.filter (fun e => e.1 ≠ key)

/-- `get_cached_result(file_hash, engine)` (app.py lines 280-290): returns
`None` when caching is off; otherwise queries Redis.  The Redis call is NOT
wrapped in try/except, so a backend failure raises out of the function. -/
def get_cached_result (w : World) (cache : List CacheEntry)
    (file_hash engine : String) : Except Exc (Option String) :=
  if w.cacheAvail = false then .ok none
  else
    match w.redisGetFail with
    | some d => .error (.cacheError d)
    | none => .ok (redisGet cache ("pdf_convert:" ++ file_hash ++ ":" ++ engine) w.now)

/-- `set_cached_result(file_hash, engine, result_filename)` (app.py lines
292-298): no-op when caching is off; otherwise `SETEX` with a 3600 s TTL,
again with no try/except around the Redis call. -/
def set_cached_result (w : World) (cache : List CacheEntry)
    (file_hash engine result_filename : String) : Except Exc (List CacheEntry) :=
  if w.cacheAvail = false then .ok cache
  else
    match w.redisSetFail with
    | some d => .error (.cacheError d)
    | none =>
        .ok (redisSetex cache ("pdf_convert:" ++ file_hash ++ ":" ++ engine)
              result_filename 3600 w.now)

/-- `apply_rtl_to_docx` (app.py lines 300-342).  Its whole body sits in a
`try` whose `except Exception` returns `False`, and each per-run reshape sits
in a further inner `try` that swallows its own failures, so the function can
only return a Bool, never raise: `true` when the document was reopened,
rewritten and saved, `false` when anything in that outer block raised. -/
def apply_rtl_to_docx (w : World) : Bool :=
  match w.rtlExc with
  | some _ => false
  | none => true

/-- `engine = request.form.get('engine', 'standard')` followed by
`if engine not in ['standard', 'high_quality']: engine = 'standard'`
(app.py lines 442-444). -/
def normalizeEngine (field : Option String) : String :=
  let engine := field.getD "standard"
  if engine = "standard" ∨ engine = "high_quality" then engine else "standard"

/-- Availability flag consulted for each selectable engine name. -/
def engineAvailable (w : World) : String → Bool
  | "standard" => w.pdf2docx
  | "high_quality" => w.aspose
  | _ => false

/-- The alternative quality tier used for fallback. -/
def otherEngine : String → String
  | "standard" => "high_quality"
  | _ => "standard"

/-- Concrete library backing each engine name. -/
def implOf : String → String
  | "standard" => "pdf2docx"
  | _ => "aspose"

/-- Information carried out of `tryBody` by a raised exception: the
exception itself, the value of the local `engine` variable if it was bound
(`'engine' in locals()`, app.py line 587), the value of `pdf_path` if it was
set, and the state at the moment of the raise. -/
structure Raised where
  exc : Exc
  engineVar : Option String
  pdfPath : Option String
  st : SysState

/-- The keys of `conversion_stats['engine_usage']` (app.py lines 229-236). -/
def ENGINE_USAGE_KEYS : List String :=
  ["standard", "high_quality", "pdf_to_image", "image_to_pdf", "merge_pdf", "compress_pdf"]

/-- `update_stats(success, engine, _)` (app.py lines 242-266).  The call is
recorded in `statsLog` unconditionally, because `total_conversions` and the
success/failure counter increment (lines 244-248) BEFORE line 250; line 250,
`conversion_stats['engine_usage'][engine] += 1`, raises `KeyError(engine)`
when `engine` is not one of the six keys — in particular for the literal
`'unknown'` passed on the validation paths and in the except clause.  (The
Redis `incr` at lines 253-257 is inside its own try/except and the running
mean is pure arithmetic, so neither can raise.) -/
def update_stats (st : SysState) (success : Bool) (engine : String) :
    Except (Exc × SysState) SysState :=
  let st := { st with statsLog := st.statsLog ++ [(success, engine)] }
  if engine ∈ ENGINE_USAGE_KEYS then .ok st
  else .error (.keyError engine, st)

/-- The pdf2docx invocation used by both the primary standard branch
(app.py lines 502-515) and the fallback branch (lines 518-532):
`Converter(pdf_path); cv.convert(...); cv.close()` (any exception propagates
unwrapped), then `apply_rtl_to_docx` whose Bool only selects a log line. -/
def invokeStandard (w : World) (st : SysState) (docx : String) :
    Except (Exc × SysState) SysState :=
  let st := { st with engineCalls := st.engineCalls ++ ["pdf2docx"] }
  match w.engineRun "pdf2docx" with
  | .raise d => .error (.other d, st)
  | .ok wrote =>
      let st := { st with
        converted := if wrote then st.converted ++ [docx] else st.converted }
      .ok { st with rtlLog := st.rtlLog ++ [apply_rtl_to_docx w] }

/-- The Aspose invocation.  In the primary high-quality branch (app.py lines
477-500) the call is wrapped in a `try` that re-raises
`Exception(f"خطأ في محرك الجودة العالية: {asp_e}")`; in the fallback branch
(lines 533-548) there is no such wrapper and the raw exception propagates,
hence the `wrapError` flag. -/
def invokeAspose (w : World) (st : SysState) (docx : String) (wrapError : Bool) :
    Except (Exc × SysState) SysState :=
  let st := { st with engineCalls := st.engineCalls ++ ["aspose"] }
  match w.engineRun "aspose" with
  | .raise d =>
      .error
        (.other (if wrapError then "خطأ في محرك الجودة العالية: " ++ d else d), st)
  | .ok wrote =>
      let st := { st with
        converted := if wrote then st.converted ++ [docx] else st.converted }
      .ok { st with rtlLog := st.rtlLog ++ [apply_rtl_to_docx w] }

/-- Engine dispatch (app.py lines 474-551).  Returns the effective engine
name together with the post-invocation state: the fallback branches reassign
`engine = 'standard'` / `engine = 'high_quality'` only AFTER the conversion
succeeded, so a raise inside a fallback still reports the originally
requested engine in `locals()`.  When no engine is available the code first
calls `update_stats(False, engine, ...)` (which raises only for an invalid
key; `engine` is normalized here, so it completes) and then
`api.abort(503, ...)`. -/
def selectAndRun (w : World) (st : SysState) (engine docx : String) :
    Except (Exc × SysState) (String × SysState) :=
  if engine = "high_quality" ∧ w.aspose = true then
    (invokeAspose w st docx true).map (fun st1 => (engine, st1))
  else if engine = "standard" ∧ w.pdf2docx = true then
    (invokeStandard w st docx).map (fun st1 => (engine, st1))
  else if w.pdf2docx = true then
    (invokeStandard w st docx).map (fun st1 => ("standard", st1))
  else if w.aspose = true then
    (invokeAspose w st docx false).map (fun st1 => ("high_quality", st1))
  else
    match update_stats st false engine with
    | .ok st1 => .error (.httpAbort 503 "لا يوجد محرك تحويل متوفر حالياً.", st1)
    | .error (e, st1) => .error (e, st1)

/-- The call-site usability check on a cache lookup result (app.py line 457):
`if cached_result and os.path.exists(os.path.join(CONVERTED_FOLDER, cached_result))`. -/
def usableHit (converted : List String) (cached : Option String) : Option String :=
  match cached with
  | some c => if c ∈ converted then some c else none
  | none => none

/-- The recompute path of `Convert.post` (app.py lines 470-580): derive the
output name, dispatch to an engine, check the output exists (the
`or not success` disjunct of line 554 is vacuous: `success` is `True` on
every path reaching it), store the cache entry, delete the upload, record a
successful stat and return. -/
def recompute (w : World) (engine safe file_hash : String) (st : SysState) :
    Except Raised (ConvertResponse × SysState) :=
  let docx := stripExt safe ++ ".docx"
  match selectAndRun w st engine docx with
  | .error (e, st1) => .error ⟨e, some engine, some safe, st1⟩
  | .ok (engineUsed, st1) =>
      if docx ∉ st1.converted then
        match update_stats st1 false engineUsed with
        | .error (e, st2) => .error ⟨e, some engineUsed, some safe, st2⟩
        | .ok st2 =>
            let st3 := { st2 with uploads := st2.uploads.erase safe }
            .error ⟨.httpAbort 500 "فشل في إنشاء ملف Word", some engineUsed, some safe, st3⟩
      else
        match set_cached_result w st1.cache file_hash engineUsed docx with
        | .error e => .error ⟨e, some engineUsed, some safe, st1⟩
        | .ok cache1 =>
            let st2 := { st1 with cache := cache1 }
            let st3 := { st2 with uploads := st2.uploads.erase safe }
            match update_stats st3 true engineUsed with
            | .error (e, st4) => .error ⟨e, some engineUsed, some safe, st4⟩
            | .ok st4 =>
                .ok ({ success := true
                       message := "تم التحويل بنجاح!"
                       filename := docx
                       engine_used := engineUsed
                       download_url := "/download/" ++ docx
                       cached := false }, st4)

/-- The body of `Convert.post` from the point where validation has passed
(app.py lines 449-580): save the upload, fingerprint it, consult the cache,
and either serve the cached artifact (only when it still exists on disk) or
recompute. -/
def afterValidation (w : World) (file : UploadedFile) (engine : String)
    (st : SysState) : Except Raised (ConvertResponse × SysState) :=
  let safe := w.safeName
  let st := { st with uploads := st.uploads ++ [safe] }
  let file_hash := w.fileHash file.content
  match get_cached_result w st.cache file_hash engine with
  | .error e => .error ⟨e, some engine, some safe, st⟩
  | .ok cached =>
      match usableHit st.converted cached with
      | some cname =>
          match update_stats st true engine with
          | .error (e, st1) => .error ⟨e, some engine, some safe, st1⟩
          | .ok st1 =>
              .ok ({ success := true
                     message := "تم التحويل بنجاح! (من التخزين المؤقت)"
                     filename := cname
                     engine_used := engine
                     download_url := "/download/" ++ cname
                     cached := true }, st1)
      | none => recompute w engine safe file_hash st

/-- The `try` block of `Convert.post` (app.py lines 427-580).  Each
validation failure calls `update_stats(False, 'unknown', ...)` and only then
`api.abort(400, ...)`; since `'unknown'` is not an `engine_usage` key,
`update_stats` raises `KeyError('unknown')` FIRST, so the `abort(400)` on
these paths is dead code and the exception that leaves the `try` block is
the KeyError.  At these points neither `engine` nor a saved `pdf_path`
exist yet. -/
def tryBody (w : World) (req : ConvReq) (st : SysState) :
    Except Raised (ConvertResponse × SysState) :=
  match req.filePart with
  | none =>
      match update_stats st false "unknown" with
      | .ok st1 => .error ⟨.httpAbort 400 "لم يتم إرسال أي ملف!", none, none, st1⟩
      | .error (e, st1) => .error ⟨e, none, none, st1⟩
  | some file =>
      if file.filename = "" then
        match update_stats st false "unknown" with
        | .ok st1 => .error ⟨.httpAbort 400 "لم يتم اختيار ملف!", none, none, st1⟩
        | .error (e, st1) => .error ⟨e, none, none, st1⟩
      else if allowed_file file.filename = false then
        match update_stats st false "unknown" with
        | .ok st1 =>
            .error ⟨.httpAbort 400 "نوع الملف غير مسموح. يرجى رفع ملفات PDF فقط.", none, none, st1⟩
        | .error (e, st1) => .error ⟨e, none, none, st1⟩
      else
        afterValidation w file (normalizeEngine req.engineField) st

/-- The `except Exception` clause of `Convert.post` (app.py lines 582-588):
delete the upload if it was saved, call `update_stats(False, engine if
'engine' in locals() else 'unknown', ...)`, then `api.abort(500, str(e))`.
When `engine` is not in locals, that `update_stats` call itself raises
`KeyError('unknown')` inside the except clause, so the `abort(500)` never
executes and the KeyError escapes `Convert.post` (`Outcome.unhandled`). -/
def exceptClause (r : Raised) : Outcome × SysState :=
  let st :=
    match r.pdfPath with
    | some p => { r.st with uploads := r.st.uploads.erase p }
    | none => r.st
  match update_stats st false (r.engineVar.getD "unknown") with
  | .ok st1 => (.abort 500 (excStr r.exc), st1)
  | .error (e2, st1) => (.unhandled e2, st1)

/-- `Convert.post` (app.py lines 421-588).  Because werkzeug's
`HTTPException` subclasses `Exception`, every `api.abort` raised inside the
`try` block is caught by the blanket `except Exception`, and so is the
`KeyError` raised by `update_stats`; the clause then either re-raises
`api.abort(500, str(e))` or, when its own `update_stats` call raises, lets
the new exception escape. -/
def convertPost (w : World) (req : ConvReq) (st : SysState) : Outcome × SysState :=
  match tryBody w req st with
  | .ok (resp, st1) => (.ok resp, st1)
  | .error r => exceptClause r

/-- Whether an outcome is the cache-hit response. -/
def isCacheHit : Outcome → Bool
  | .ok r => r.cached
  | .abort _ _ => false
  | .unhandled _ => false

/-- The `user_count` computation of `Stats.get` (app.py lines 385-405):
`base_count = 1250`, `time_growth = int((time.time() - 1703700000) / 600)`
(Python `int()` truncates toward zero, `Int.tdiv` here), and the displayed
total is the Redis counter when the client exists, the read succeeds and the
stored bytes are truthy, otherwise the in-memory
`conversion_stats['total_conversions']`; line 399 writes the Redis value back
into the in-memory counter before line 405 adds it. -/
def stats_user_count (now : Int) (redisTotal : Option Nat) (memTotal : Nat) : Int :=
  let base_count : Int := 1250
  let time_growth : Int := (now - 1703700000).tdiv 600
  let total : Nat :=
    match redisTotal with
    | some t => t
    | none => memTotal
  base_count + time_growth + (total : Int)

/-- One file seen by a sweeper cycle: its name, its age in minutes
(`current_time - file_time`), and whether `os.remove` would raise for it. -/
structure StoredFile where
  name : String
  ageMinutes : Nat
  removeFails : Bool
  deriving DecidableEq, Repr

/-- `FILE_RETENTION_HOURS = 1` (app.py line 79), in minutes. -/
def FILE_RETENTION_MINUTES : Nat := 60

/-- One cycle of `delete_old_files` (app.py lines 132-148) over the combined
listing of both folders, returning the names actually deleted.  The
`try`/`except` wraps the WHOLE cycle — both `for` loops — so the first
`os.remove` that raises aborts the remainder of the cycle. -/
def sweepOnce : List StoredFile → List String
  | [] => []
  | f :: rest =>
      if f.ageMinutes > FILE_RETENTION_MINUTES then
        if f.removeFails then []
        else f.name :: sweepOnce rest
      else sweepOnce rest

/-- The `@app.errorhandler(Exception)` handler `handle_unexpected_error`
(app.py lines 859-875): HTTP exceptions are returned as-is; any other
exception gets the fixed generic body. -/
def handle_unexpected_error (e : Exc) : Nat × String :=
  match e with
  | .httpAbort code msg => (code, msg)
  | _ => (500, "حدث خطأ غير متوقع. يرجى المحاولة لاحقاً.")

/-- The `@app.errorhandler(500)` handler `internal_server_error` (app.py
lines 848-855): its body embeds `str(error)` (the source comment reads
"Expose error for debugging"). -/
def internal_server_error (errText : String) : Nat × String :=
  (500, "خطأ داخلي: " ++ errText)

/-- Fresh process state: empty folders, empty Redis, no calls recorded. -/
def stEmpty : SysState := ⟨[], [], [], [], [], []⟩

/-- A well-formed upload (a small PDF). -/
def fileEx : UploadedFile := ⟨"report.pdf", [37, 80, 68, 70]⟩

/-- A baseline environment: both engines importable, caching disabled at
startup, engines succeed, post-processing succeeds. -/
def wBase : World :=
  { pdf2docx := true
    aspose := true
    cacheAvail := false
    redisGetFail := none
    redisSetFail := none
    now := 1703700000
    safeName := "report_1a2b3c4d.pdf"
    fileHash := fun _ => "d41d8cd98f00b204"
    engineRun := fun _ => .ok true
    rtlExc := none }

/-- C1 failing input: a POST to `/convert` with no file part at all. -/
def reqNoFile : ConvReq := ⟨none, none⟩

/-- C3 counterexample environment: Redis was reachable at startup
(`cacheAvail`) but the backend now raises on `GET`. -/
def wCacheDown : World := { wBase with cacheAvail := true, redisGetFail := some "Connection refused" }

/-- A valid request asking for the standard engine. -/
def reqStd : ConvReq := ⟨some fileEx, some "standard"⟩

/-- A valid request asking for the high-quality engine. -/
def reqHQ : ConvReq := ⟨some fileEx, some "high_quality"⟩

/-- C6 environment family: the requested Aspose engine raises with detail
`d`, which `Convert.post` wraps and re-raises. -/
def wEngineFail (d : String) : World := { wBase with engineRun := fun _ => .raise d }

/-- A request whose file part has an empty filename. -/
def reqEmptyName : ConvReq := ⟨some ⟨"", [1]⟩, none⟩

/-- A request with a disallowed declared extension. -/
def reqBadExt : ConvReq := ⟨some ⟨"tool.exe", [1]⟩, none⟩

/-- C2 auxiliary environment: no conversion engine importable. -/
def wNoEngine : World := { wBase with pdf2docx := false, aspose := false }

/-- C4 witness environment: the standard engine is unavailable, Aspose is
available. -/
def wFallback : World := { wBase with pdf2docx := false }

/-- C8 witness environment: post-processing raises internally. -/
def wRtlFail : World := { wBase with rtlExc := some "docx reopen failed" }

/-- C5 witness environment: caching enabled and healthy, with one live cache
entry for the witness upload stored at time 0 with expiry 3600. -/
def wCacheLive : World := { wBase with cacheAvail := true, now := 10 }

/-- C5 witness state: the converted folder holds the cached artifact and the
Redis store maps the witness key to it. -/
def stCacheLive : SysState :=
  { stEmpty with
    converted := ["report_old.docx"]
    cache := [("pdf_convert:d41d8cd98f00b204:standard", "report_old.docx", 3600)] }

/-- State reached after a successful engine invocation that wrote `docx`:
the engine call is logged, the artifact exists, and the post-processor was
applied (recording its Bool result). -/
def stAfterEngine (w : World) (st : SysState) (docx impl : String) : SysState :=
  { st with
    engineCalls := st.engineCalls ++ [impl]
    converted := st.converted ++ [docx]
    rtlLog := st.rtlLog ++ [apply_rtl_to_docx w] }

/-- C3 auxiliary environment: Redis reachable at startup but `SETEX` now
raises. -/
def wCacheSetDown : World :=
  { wBase with cacheAvail := true, redisSetFail := some "Connection reset" }

/-- The C7 counterexample listing: an expired file whose deletion raises,
listed before another expired, deletable file. -/
def sweepEx : List StoredFile :=
  [⟨"locked.docx", 120, true⟩, ⟨"old.docx", 120, false⟩]

/-- C1 (code_bug): the spec requires a client-error (4xx) outcome for a
missing payload, an empty filename, or a disallowed extension.  On each of
these paths the code calls `update_stats(False, 'unknown', ...)` BEFORE its
`api.abort(400, ...)` (app.py lines 429-439), and `update_stats` raises
`KeyError('unknown')` at line 250 (`engine_usage` has no such key), so the
400 abort never executes; the blanket `except Exception` at line 582
catches the KeyError, line 587 calls `update_stats(False, 'unknown', ...)`
again, which raises the same KeyError, so `api.abort(500, str(e))` at line
588 never executes either and the KeyError escapes `Convert.post` —
flask-restx's error router turns it into a 500 response with its fixed
generic body.  The request therefore terminates with an internal-error
outcome (`Outcome.unhandled`, never any `Outcome.abort`, in particular no
4xx), though no artifact is created, as the claim also states. -/
theorem convert_validation_failure_yields_500 :
    (convertPost wBase reqNoFile stEmpty).1
        = Outcome.unhandled (Exc.keyError "unknown") ∧
    (convertPost wBase reqEmptyName stEmpty).1
        = Outcome.unhandled (Exc.keyError "unknown") ∧
    (convertPost wBase reqBadExt stEmpty).1
        = Outcome.unhandled (Exc.keyError "unknown") ∧
    (convertPost wBase reqNoFile stEmpty).2.converted = [] ∧
    (convertPost wBase reqEmptyName stEmpty).2.converted = [] ∧
    (convertPost wBase reqBadExt stEmpty).2.converted = [] :=
  ⟨rfl, rfl, rfl, rfl, rfl, rfl⟩

/-- C2 (code_bug): the spec requires `update_stats` to run exactly once per
request.  On every path that ends in `api.abort` inside the `try` block —
the three validation failures (app.py lines 429-439) and the no-engine 503
(line 550) — `update_stats` is called before the abort and then AGAIN in the
`except Exception` clause (line 587) that catches the abort, so those
requests are counted twice. -/
theorem convert_failure_double_counts_stats :
    (convertPost wBase reqNoFile stEmpty).2.statsLog
        = [(false, "unknown"), (false, "unknown")] ∧
    (convertPost wNoEngine reqStd stEmpty).2.statsLog
        = [(false, "standard"), (false, "standard")] :=
  ⟨rfl, rfl⟩

/-- C9 (confirmed): for every `/stats` call, the reported `user_count` is
`1250 + floor((now - 1703700000) / 600) + total_conversions` (with the
in-memory total refreshed from the durable Redis counter when one is
readable), so it grows by one for each 600 s of wall-clock time with no
conversions at all, and it never equals the recorded number of
conversions. -/
theorem stats_user_count_formula (now : Int) (rt : Option Nat) (mt : Nat)
    (h : 1703700000 ≤ now) :
    stats_user_count now rt mt
        = 1250 + (now - 1703700000).fdiv 600 + ((rt.getD mt : Nat) : Int) ∧
    stats_user_count (now + 600) rt mt = stats_user_count now rt mt + 1 ∧
    stats_user_count now rt mt ≠ ((rt.getD mt : Nat) : Int) := by
  have hg : (0 : Int) ≤ now - 1703700000 := by omega
  have hg6 : (0 : Int) ≤ now + 600 - 1703700000 := by omega
  have htot : (match rt with | some t => t | none => mt) = rt.getD mt := by
    cases rt <;> rfl
  have htf : ∀ a : Int, 0 ≤ a → a.tdiv 600 = a.fdiv 600 := by
    intro a ha
    rw [Int.tdiv_eq_ediv ha (by norm_num), Int.fdiv_eq_ediv a (by norm_num)]
  refine ⟨?_, ?_, ?_⟩
  · simp only [stats_user_count, htot, htf _ hg]
  · simp only [stats_user_count, htot, htf _ hg, htf _ hg6]
    have hstep : (now + 600 - 1703700000).fdiv 600 = (now - 1703700000).fdiv 600 + 1 := by
      rw [Int.fdiv_eq_ediv _ (by norm_num), Int.fdiv_eq_ediv _ (by norm_num)]
      have : now + 600 - 1703700000 = (now - 1703700000) + 1 * 600 := by ring
      rw [this, Int.add_mul_ediv_right _ _ (by norm_num)]
    rw [hstep]; ring
  · simp only [stats_user_count, htot]
    have hnn : 0 ≤ (now - 1703700000).tdiv 600 := Int.tdiv_nonneg hg (by norm_num)
    omega

theorem update_stats_ok (st : SysState) (success : Bool) (e : String)
    (hk : e ∈ ENGINE_USAGE_KEYS) :
    update_stats st success e
      = .ok { st with statsLog := st.statsLog ++ [(success, e)] } := by
  simp [update_stats, hk]

theorem isCacheHit_exceptClause (x : Raised) : isCacheHit (exceptClause x).1 = false := by
  simp only [exceptClause]
  split
  · rfl
  · rfl

theorem exceptClause_not_ok (x : Raised) (r : ConvertResponse) :
    (exceptClause x).1 ≠ Outcome.ok r := by
  simp only [exceptClause]
  split
  · intro h
    cases h
  · intro h
    cases h

theorem convertPost_valid (w : World) (f : UploadedFile) (ef : Option String)
    (st : SysState) (hn : ¬ f.filename = "") (ha : allowed_file f.filename = true) :
    convertPost w ⟨some f, ef⟩ st =
      match afterValidation w f (normalizeEngine ef) st with
      | .ok (resp, st1) => (Outcome.ok resp, st1)
      | .error r => exceptClause r := by
  simp [convertPost, tryBody, hn, ha]

theorem afterValidation_getError (w : World) (f : UploadedFile) (e : String)
    (st : SysState) (x : Exc)
    (hget : get_cached_result w st.cache (w.fileHash f.content) e = .error x) :
    afterValidation w f e st =
      .error ⟨x, some e, some w.safeName, { st with uploads := st.uploads ++ [w.safeName] }⟩ := by
  simp only [afterValidation]
  rw [hget]

theorem afterValidation_miss (w : World) (f : UploadedFile) (e : String)
    (st : SysState) (cachedOpt : Option String)
    (hget : get_cached_result w st.cache (w.fileHash f.content) e = .ok cachedOpt)
    (hmiss : usableHit st.converted cachedOpt = none) :
    afterValidation w f e st =
      recompute w e w.safeName (w.fileHash f.content)
        { st with uploads := st.uploads ++ [w.safeName] } := by
  simp only [afterValidation]
  rw [hget]
  dsimp only
  rw [hmiss]

theorem afterValidation_hit (w : World) (f : UploadedFile) (e : String)
    (st : SysState) (cachedOpt : Option String) (c : String)
    (hk : e ∈ ENGINE_USAGE_KEYS)
    (hget : get_cached_result w st.cache (w.fileHash f.content) e = .ok cachedOpt)
    (hhit : usableHit st.converted cachedOpt = some c) :
    afterValidation w f e st =
      .ok ({ success := true
             message := "تم التحويل بنجاح! (من التخزين المؤقت)"
             filename := c
             engine_used := e
             download_url := "/download/" ++ c
             cached := true },
           { st with
             uploads := st.uploads ++ [w.safeName]
             statsLog := st.statsLog ++ [(true, e)] }) := by
  simp only [afterValidation]
  rw [hget]
  dsimp only
  rw [hhit]
  dsimp only
  rw [update_stats_ok _ true e hk]

theorem recompute_cached_false (w : World) (e safe fh : String) (st : SysState)
    (resp : ConvertResponse) (st1 : SysState)
    (h : recompute w e safe fh st = .ok (resp, st1)) : resp.cached = false := by
  simp only [recompute] at h
  rcases hsel : selectAndRun w st e (stripExt safe ++ ".docx") with p | p <;> rw [hsel] at h
  · simp at h
  · obtain ⟨u, st2⟩ := p
    simp only at h
    by_cases hmem : (stripExt safe ++ ".docx") ∈ st2.converted
    · rw [if_neg (by simpa using hmem)] at h
      rcases hset : set_cached_result w st2.cache fh u (stripExt safe ++ ".docx") with x | c1 <;>
        rw [hset] at h
      · simp at h
      · dsimp only at h
        split at h
        · cases h
        · cases h
          rfl
    · rw [if_pos (by simpa using hmem)] at h
      split at h
      · cases h
      · cases h

theorem normalizeEngine_cases (ef : Option String) :
    normalizeEngine ef = "standard" ∨ normalizeEngine ef = "high_quality" := by
  unfold normalizeEngine
  by_cases h : (ef.getD "standard") = "standard" ∨ (ef.getD "standard") = "high_quality"
  · rw [if_pos h]; exact h
  · rw [if_neg h]; exact Or.inl rfl

theorem norm_mem_engine_usage (ef : Option String) :
    normalizeEngine ef ∈ ENGINE_USAGE_KEYS := by
  rcases normalizeEngine_cases ef with h | h <;> rw [h] <;> decide

theorem otherEngine_mem_engine_usage (ef : Option String) :
    otherEngine (normalizeEngine ef) ∈ ENGINE_USAGE_KEYS := by
  rcases normalizeEngine_cases ef with h | h <;> rw [h] <;> decide

theorem selectAndRun_primary (w : World) (st : SysState) (e docx : String)
    (he : e = "standard" ∨ e = "high_quality")
    (hav : engineAvailable w e = true)
    (hrun : w.engineRun (implOf e) = .ok true) :
    selectAndRun w st e docx = .ok (e, stAfterEngine w st docx (implOf e)) := by
  rcases he with he | he <;> subst he
  · have hp : w.pdf2docx = true := hav
    rw [show implOf "standard" = "pdf2docx" from rfl] at hrun
    simp [selectAndRun, hp, invokeStandard, hrun, stAfterEngine, implOf, Except.map]
  · have ha : w.aspose = true := hav
    rw [show implOf "high_quality" = "aspose" from rfl] at hrun
    simp [selectAndRun, ha, invokeAspose, hrun, stAfterEngine, implOf, Except.map]

theorem selectAndRun_fallback (w : World) (st : SysState) (e docx : String)
    (he : e = "standard" ∨ e = "high_quality")
    (hreq : engineAvailable w e = false)
    (halt : engineAvailable w (otherEngine e) = true)
    (hrun : w.engineRun (implOf (otherEngine e)) = .ok true) :
    selectAndRun w st e docx
      = .ok (otherEngine e, stAfterEngine w st docx (implOf (otherEngine e))) := by
  rcases he with he | he <;> subst he
  · have hp : w.pdf2docx = false := hreq
    have ha : w.aspose = true := halt
    rw [show implOf (otherEngine "standard") = "aspose" from rfl] at hrun
    simp [selectAndRun, hp, ha, invokeAspose, hrun, stAfterEngine, otherEngine, implOf, Except.map]
  · have ha : w.aspose = false := hreq
    have hp : w.pdf2docx = true := halt
    rw [show implOf (otherEngine "high_quality") = "pdf2docx" from rfl] at hrun
    simp [selectAndRun, hp, ha, invokeStandard, hrun, stAfterEngine, otherEngine, implOf, Except.map]

theorem recompute_of_selectAndRun_ok (w : World) (e safe fh u : String)
    (st st1 : SysState)
    (hsel : selectAndRun w st e (stripExt safe ++ ".docx") = .ok (u, st1))
    (hmem : (stripExt safe ++ ".docx") ∈ st1.converted)
    (hset : w.cacheAvail = false ∨ w.redisSetFail = none)
    (hu : u ∈ ENGINE_USAGE_KEYS) :
    ∃ st2, recompute w e safe fh st =
      .ok ({ success := true
             message := "تم التحويل بنجاح!"
             filename := stripExt safe ++ ".docx"
             engine_used := u
             download_url := "/download/" ++ (stripExt safe ++ ".docx")
             cached := false }, st2) ∧
      st2.engineCalls = st1.engineCalls ∧
      st2.converted = st1.converted ∧
      st2.statsLog = st1.statsLog ++ [(true, u)] ∧
      st2.rtlLog = st1.rtlLog := by
  simp only [recompute]
  rw [hsel]
  dsimp only
  rw [if_neg (by simpa using hmem)]
  rcases hca : w.cacheAvail with _ | _
  · rw [show set_cached_result w st1.cache fh u (stripExt safe ++ ".docx") = .ok st1.cache by
      simp [set_cached_result, hca]]
    dsimp only
    rw [update_stats_ok _ true u hu]
    exact ⟨_, rfl, rfl, rfl, rfl, rfl⟩
  · have hsn : w.redisSetFail = none := hset.resolve_left (by simp [hca])
    rw [show set_cached_result w st1.cache fh u (stripExt safe ++ ".docx")
        = .ok (redisSetex st1.cache ("pdf_convert:" ++ fh ++ ":" ++ u)
            (stripExt safe ++ ".docx") 3600 w.now) by
      simp [set_cached_result, hca, hsn]]
    dsimp only
    rw [update_stats_ok _ true u hu]
    exact ⟨_, rfl, rfl, rfl, rfl, rfl⟩

/-- C3 (counterexample): with a cache backend that was reachable at startup
but fails at lookup time, the raised Redis exception is NOT swallowed: it
reaches the blanket `except Exception` and the request fails with a 500
carrying the backend's message — no engine ever runs (no recompute).
Likewise a failure at store time fails a request whose conversion had
already produced its artifact. -/
theorem cache_backend_failure_surfaces_500 :
    (convertPost wCacheDown reqStd stEmpty).1 = Outcome.abort 500 "Connection refused" ∧
    (convertPost wCacheDown reqStd stEmpty).2.engineCalls = [] ∧
    (convertPost wCacheSetDown reqStd stEmpty).1 = Outcome.abort 500 "Connection reset" ∧
    (convertPost wCacheSetDown reqStd stEmpty).2.converted = ["report_1a2b3c4d.docx"] :=
  ⟨rfl, rfl, rfl, rfl⟩

/-- C6 (counterexample): two requests that differ only in the internal
engine-exception detail receive DIFFERENT response bodies, each embedding
the internal detail, because `Convert.post` re-raises every failure as
`api.abort(500, str(e))`. -/
theorem internal_error_detail_leaks_to_body :
    (convertPost (wEngineFail "boom1") reqHQ stEmpty).1
        = Outcome.abort 500 "خطأ في محرك الجودة العالية: boom1" ∧
    (convertPost (wEngineFail "boom2") reqHQ stEmpty).1
        = Outcome.abort 500 "خطأ في محرك الجودة العالية: boom2" ∧
    ("خطأ في محرك الجودة العالية: boom1" : String)
        ≠ "خطأ في محرك الجودة العالية: boom2" :=
  ⟨rfl, rfl, by decide⟩

/-- C6 (amended): only exceptions that reach the app-level
`handle_unexpected_error` handler get the fixed generic body, identical for
any two internal details; failures inside `Convert.post` itself are
re-raised as `abort(500, str(e))`, whose body embeds the internal exception
text, and the `errorhandler(500)` body likewise embeds `str(error)`. -/
theorem generic_handler_uniform_but_convert_leaks (d1 d2 : String) :
    handle_unexpected_error (Exc.other d1) = handle_unexpected_error (Exc.other d2) ∧
    (convertPost (wEngineFail d1) reqHQ stEmpty).1
        = Outcome.abort 500 ("خطأ في محرك الجودة العالية: " ++ d1) ∧
    (internal_server_error d1).2 = "خطأ داخلي: " ++ d1 :=
  ⟨rfl, rfl, rfl⟩

/-- Witness for `generic_handler_uniform_but_convert_leaks` at two concrete
details. -/
theorem generic_handler_uniform_but_convert_leaks_witness :
    handle_unexpected_error (Exc.other "boom1") = handle_unexpected_error (Exc.other "boom2") ∧
    (convertPost (wEngineFail "boom1") reqHQ stEmpty).1
        = Outcome.abort 500 ("خطأ في محرك الجودة العالية: " ++ "boom1") ∧
    (internal_server_error "boom1").2 = "خطأ داخلي: " ++ "boom1" :=
  generic_handler_uniform_but_convert_leaks "boom1" "boom2"

/-- C7 (counterexample): in `delete_old_files` the `try`/`except` wraps the
whole cycle, outside both `for` loops, so when deleting the first expired
file raises, the cycle ends: the second file is older than the retention
window and deletable, yet nothing at all is deleted in that cycle. -/
theorem sweep_aborts_after_failed_delete :
    sweepOnce sweepEx = [] ∧
    (⟨"old.docx", 120, false⟩ : StoredFile).ageMinutes > FILE_RETENTION_MINUTES ∧
    (⟨"old.docx", 120, false⟩ : StoredFile).removeFails = false ∧
    sweepEx.getLastD ⟨"", 0, true⟩ = ⟨"old.docx", 120, false⟩ :=
  ⟨rfl, by decide, rfl, rfl⟩

/-- C7 (amended): one sweep cycle deletes exactly the expired files listed
BEFORE the first expired file whose deletion fails; that failure aborts the
remainder of the cycle (deletion is best-effort per cycle, not per file). -/
theorem sweep_deletes_prefix_before_first_failure (files : List StoredFile) :
    sweepOnce files =
      ((files.takeWhile fun f =>
          !(decide (f.ageMinutes > FILE_RETENTION_MINUTES) && f.removeFails)).filter
        (fun f => decide (f.ageMinutes > FILE_RETENTION_MINUTES))).map
        (fun f => f.name) := by
  induction files with
  | nil => rfl
  | cons f rest ih =>
      by_cases hold : f.ageMinutes > FILE_RETENTION_MINUTES
      · by_cases hfail : f.removeFails = true
        · simp [sweepOnce, hold, hfail]
        · simp only [Bool.not_eq_true] at hfail
          simp [sweepOnce, hold, hfail, ih]
      · simp [sweepOnce, hold, ih]

/-- Witness for `sweep_deletes_prefix_before_first_failure` on the concrete
listing `sweepEx` (both sides evaluate to `[]`). -/
theorem sweep_deletes_prefix_before_first_failure_witness :
    sweepOnce sweepEx =
      ((sweepEx.takeWhile fun f =>
          !(decide (f.ageMinutes > FILE_RETENTION_MINUTES) && f.removeFails)).filter
        (fun f => decide (f.ageMinutes > FILE_RETENTION_MINUTES))).map
        (fun f => f.name) :=
  sweep_deletes_prefix_before_first_failure sweepEx

/-- Witness for `stats_user_count_formula` at `now = 1703701200` (two growth
steps past the baked-in epoch), no Redis counter, 5 in-memory conversions. -/
theorem stats_user_count_formula_witness :
    (1703700000 : Int) ≤ 1703701200 ∧
    (stats_user_count 1703701200 none 5
        = 1250 + ((1703701200 : Int) - 1703700000).fdiv 600 + ((5 : Nat) : Int) ∧
     stats_user_count (1703701200 + 600) none 5 = stats_user_count 1703701200 none 5 + 1 ∧
     stats_user_count 1703701200 none 5 ≠ ((5 : Nat) : Int)) :=
  ⟨by norm_num, stats_user_count_formula 1703701200 none 5 (by norm_num)⟩

/-- C3 (amended): backend failures can only be "swallowed" through the
startup availability flag: when the cache backend was unavailable at startup
(`cache_available` false or no Redis client), `get_cached_result` returns
`None` and `set_cached_result` is a no-op whatever the backend would do now,
so every valid request recomputes the conversion and succeeds — no cache
error can reach the caller.  A backend that was reachable at startup but
fails during lookup or store instead fails the request with a 500 (see the
counterexample `cache_backend_failure_surfaces_500`). -/
theorem cache_disabled_degrades_to_recompute
    (w : World) (f : UploadedFile) (ef : Option String) (st : SysState)
    (hn : ¬ f.filename = "") (ha : allowed_file f.filename = true)
    (hoff : w.cacheAvail = false)
    (hav : engineAvailable w (normalizeEngine ef) = true)
    (hrun : w.engineRun (implOf (normalizeEngine ef)) = .ok true) :
    ∃ r st1, convertPost w ⟨some f, ef⟩ st = (Outcome.ok r, st1) ∧
      r.success = true ∧ r.cached = false ∧
      st1.engineCalls = st.engineCalls ++ [implOf (normalizeEngine ef)] := by
  rw [convertPost_valid w f ef st hn ha]
  have hget : get_cached_result w st.cache (w.fileHash f.content)
      (normalizeEngine ef) = .ok none := by
    simp [get_cached_result, hoff]
  rw [afterValidation_miss w f _ st none hget rfl]
  have hsel := selectAndRun_primary w { st with uploads := st.uploads ++ [w.safeName] }
    (normalizeEngine ef) (stripExt w.safeName ++ ".docx")
    (normalizeEngine_cases ef) hav hrun
  obtain ⟨st2, hrec, hec, hcv, hsl, hrt⟩ :=
    recompute_of_selectAndRun_ok w (normalizeEngine ef) w.safeName
      (w.fileHash f.content) _ _ _ hsel (by simp [stAfterEngine]) (Or.inl hoff)
      (norm_mem_engine_usage ef)
  rw [hrec]
  dsimp only
  refine ⟨_, st2, rfl, rfl, rfl, ?_⟩
  rw [hec]
  simp [stAfterEngine]

/-- Witness for `cache_disabled_degrades_to_recompute`: a valid PDF request
in the baseline environment (cache off at startup, standard engine
available). -/
theorem cache_disabled_degrades_to_recompute_witness :
    allowed_file "report.pdf" = true ∧ wBase.cacheAvail = false ∧
    (∃ r st1, convertPost wBase ⟨some fileEx, some "standard"⟩ stEmpty = (Outcome.ok r, st1) ∧
      r.success = true ∧ r.cached = false ∧
      st1.engineCalls = stEmpty.engineCalls ++ [implOf (normalizeEngine (some "standard"))]) :=
  ⟨by decide, rfl,
    cache_disabled_degrades_to_recompute wBase fileEx (some "standard") stEmpty
      (by decide) (by decide) rfl rfl rfl⟩

/-- C4 (confirmed): when the requested engine is unavailable, the other one
is available, the cache yields no usable hit (so a conversion actually
runs), the run succeeds and the cache store does not raise, the response's
`engine_used` names the engine that actually ran — which is also the only
engine invocation recorded — not the requested engine. -/
theorem fallback_engine_reported
    (w : World) (f : UploadedFile) (ef : Option String) (st : SysState)
    (cachedOpt : Option String)
    (hn : ¬ f.filename = "") (ha : allowed_file f.filename = true)
    (hget : get_cached_result w st.cache (w.fileHash f.content)
        (normalizeEngine ef) = .ok cachedOpt)
    (hmiss : usableHit st.converted cachedOpt = none)
    (hreq : engineAvailable w (normalizeEngine ef) = false)
    (halt : engineAvailable w (otherEngine (normalizeEngine ef)) = true)
    (hrun : w.engineRun (implOf (otherEngine (normalizeEngine ef))) = .ok true)
    (hset : w.redisSetFail = none) :
    ∃ r st1, convertPost w ⟨some f, ef⟩ st = (Outcome.ok r, st1) ∧
      r.engine_used = otherEngine (normalizeEngine ef) ∧
      r.success = true ∧
      st1.engineCalls = st.engineCalls ++ [implOf (otherEngine (normalizeEngine ef))] := by
  rw [convertPost_valid w f ef st hn ha]
  rw [afterValidation_miss w f _ st cachedOpt hget hmiss]
  have hsel := selectAndRun_fallback w { st with uploads := st.uploads ++ [w.safeName] }
    (normalizeEngine ef) (stripExt w.safeName ++ ".docx")
    (normalizeEngine_cases ef) hreq halt hrun
  obtain ⟨st2, hrec, hec, hcv, hsl, hrt⟩ :=
    recompute_of_selectAndRun_ok w (normalizeEngine ef) w.safeName
      (w.fileHash f.content) _ _ _ hsel (by simp [stAfterEngine]) (Or.inr hset)
      (otherEngine_mem_engine_usage ef)
  rw [hrec]
  dsimp only
  refine ⟨_, st2, rfl, rfl, rfl, ?_⟩
  rw [hec]
  simp [stAfterEngine]

/-- Witness for `fallback_engine_reported`: standard engine requested while
only Aspose is importable; the response reports `high_quality`. -/
theorem fallback_engine_reported_witness :
    allowed_file "report.pdf" = true ∧
    engineAvailable wFallback (normalizeEngine (some "standard")) = false ∧
    engineAvailable wFallback (otherEngine (normalizeEngine (some "standard"))) = true ∧
    (∃ r st1, convertPost wFallback ⟨some fileEx, some "standard"⟩ stEmpty = (Outcome.ok r, st1) ∧
      r.engine_used = otherEngine (normalizeEngine (some "standard")) ∧
      r.success = true ∧
      st1.engineCalls = stEmpty.engineCalls
        ++ [implOf (otherEngine (normalizeEngine (some "standard")))]) :=
  ⟨by decide, rfl, rfl,
    fallback_engine_reported wFallback fileEx (some "standard") stEmpty none
      (by decide) (by decide) rfl rfl rfl rfl rfl rfl⟩

/-- C8 (confirmed): a failing post-processing step cannot roll the
conversion back.  `apply_rtl_to_docx` returns `false` (it cannot raise: its
whole body is inside `try ... except Exception: return False`), and the
orchestrator still completes the request successfully, returning the
artifact, which exists in the converted folder; the recorded post-processing
outcome for this request is `false`. -/
theorem rtl_failure_does_not_roll_back
    (w : World) (f : UploadedFile) (ef : Option String) (st : SysState)
    (cachedOpt : Option String) (d : String)
    (hn : ¬ f.filename = "") (ha : allowed_file f.filename = true)
    (hget : get_cached_result w st.cache (w.fileHash f.content)
        (normalizeEngine ef) = .ok cachedOpt)
    (hmiss : usableHit st.converted cachedOpt = none)
    (hav : engineAvailable w (normalizeEngine ef) = true)
    (hrun : w.engineRun (implOf (normalizeEngine ef)) = .ok true)
    (hset : w.redisSetFail = none)
    (hrtl : w.rtlExc = some d) :
    apply_rtl_to_docx w = false ∧
    ∃ r st1, convertPost w ⟨some f, ef⟩ st = (Outcome.ok r, st1) ∧
      r.success = true ∧
      r.filename = stripExt w.safeName ++ ".docx" ∧
      r.filename ∈ st1.converted ∧
      st1.rtlLog = st.rtlLog ++ [false] := by
  have hfalse : apply_rtl_to_docx w = false := by simp [apply_rtl_to_docx, hrtl]
  refine ⟨hfalse, ?_⟩
  rw [convertPost_valid w f ef st hn ha]
  rw [afterValidation_miss w f _ st cachedOpt hget hmiss]
  have hsel := selectAndRun_primary w { st with uploads := st.uploads ++ [w.safeName] }
    (normalizeEngine ef) (stripExt w.safeName ++ ".docx")
    (normalizeEngine_cases ef) hav hrun
  obtain ⟨st2, hrec, hec, hcv, hsl, hrt⟩ :=
    recompute_of_selectAndRun_ok w (normalizeEngine ef) w.safeName
      (w.fileHash f.content) _ _ _ hsel (by simp [stAfterEngine]) (Or.inr hset)
      (norm_mem_engine_usage ef)
  rw [hrec]
  dsimp only
  refine ⟨_, st2, rfl, rfl, rfl, ?_, ?_⟩
  · rw [hcv]
    simp [stAfterEngine]
  · rw [hrt]
    simp [stAfterEngine, hfalse]

/-- Witness for `rtl_failure_does_not_roll_back`: standard conversion in an
environment whose post-processor raises internally. -/
theorem rtl_failure_does_not_roll_back_witness :
    wRtlFail.rtlExc = some "docx reopen failed" ∧
    (apply_rtl_to_docx wRtlFail = false ∧
     ∃ r st1, convertPost wRtlFail ⟨some fileEx, some "standard"⟩ stEmpty = (Outcome.ok r, st1) ∧
       r.success = true ∧
       r.filename = stripExt wRtlFail.safeName ++ ".docx" ∧
       r.filename ∈ st1.converted ∧
       st1.rtlLog = stEmpty.rtlLog ++ [false]) :=
  ⟨rfl,
    rtl_failure_does_not_roll_back wRtlFail fileEx (some "standard") stEmpty none
      "docx reopen failed" (by decide) (by decide) rfl rfl rfl rfl rfl rfl⟩

/-- C10 (confirmed): an `engine` form value outside
`{standard, high_quality}` — or an absent one — makes the request behave
EXACTLY like an explicit `engine=standard` request: same outcome, same state,
no error, and nothing in the response reveals that the value was replaced. -/
theorem unknown_engine_treated_as_standard
    (w : World) (fp : Option UploadedFile) (st : SysState) (e : String)
    (h1 : e ≠ "standard") (h2 : e ≠ "high_quality") :
    convertPost w ⟨fp, some e⟩ st = convertPost w ⟨fp, some "standard"⟩ st ∧
    convertPost w ⟨fp, none⟩ st = convertPost w ⟨fp, some "standard"⟩ st := by
  have hn : normalizeEngine (some e) = "standard" := by
    simp [normalizeEngine, h1, h2]
  have hn2 : normalizeEngine (none : Option String) = "standard" := rfl
  have hn3 : normalizeEngine (some "standard") = "standard" := rfl
  constructor <;> simp only [convertPost, tryBody, hn, hn2, hn3]

/-- Witness for `unknown_engine_treated_as_standard` at the unknown value
"turbo". -/
theorem unknown_engine_treated_as_standard_witness :
    ("turbo" : String) ≠ "standard" ∧ ("turbo" : String) ≠ "high_quality" ∧
    (convertPost wBase ⟨some fileEx, some "turbo"⟩ stEmpty
        = convertPost wBase ⟨some fileEx, some "standard"⟩ stEmpty ∧
     convertPost wBase ⟨some fileEx, none⟩ stEmpty
        = convertPost wBase ⟨some fileEx, some "standard"⟩ stEmpty) :=
  ⟨by decide, by decide,
    unknown_engine_treated_as_standard wBase (some fileEx) stEmpty "turbo"
      (by decide) (by decide)⟩

theorem recompute_branch_not_hit (w : World) (e safe fh : String) (st0 : SysState)
    (o : Outcome × SysState)
    (ho : o = match recompute w e safe fh st0 with
      | .ok (resp, st1) => (Outcome.ok resp, st1)
      | .error r => exceptClause r) :
    isCacheHit o.1 = false ∧ ∀ r, o.1 = Outcome.ok r → r.cached = false := by
  rcases hr : recompute w e safe fh st0 with x | p
  · rw [hr] at ho
    subst ho
    exact ⟨isCacheHit_exceptClause x, fun r h => absurd h (exceptClause_not_ok x r)⟩
  · obtain ⟨resp, st1⟩ := p
    rw [hr] at ho
    subst ho
    have hc := recompute_cached_false w e safe fh st0 resp st1 hr
    refine ⟨by simpa [isCacheHit] using hc, ?_⟩
    intro r h
    cases h
    exact hc

/-- C5 (confirmed): the request is served from cache exactly when caching is
on, the Redis lookup does not fail, the key `(fingerprint, engine)` has a
live (unexpired) entry, AND the artifact that entry names still exists in
the converted folder; moreover any cache-served response names an artifact
that existed in the converted folder before the request — a stale entry
whose artifact was deleted falls through to recomputation, never to a hit
pointing at nonexistent data. -/
theorem cache_hit_iff_live_entry_and_artifact
    (w : World) (f : UploadedFile) (ef : Option String) (st : SysState)
    (hn : ¬ f.filename = "") (ha : allowed_file f.filename = true) :
    (isCacheHit (convertPost w ⟨some f, ef⟩ st).1 = true ↔
      (w.cacheAvail = true ∧ w.redisGetFail = none ∧
       ∃ c, redisGet st.cache
           ("pdf_convert:" ++ w.fileHash f.content ++ ":" ++ normalizeEngine ef)
           w.now = some c ∧ c ∈ st.converted)) ∧
    (∀ r, (convertPost w ⟨some f, ef⟩ st).1 = Outcome.ok r → r.cached = true →
      r.filename ∈ st.converted) := by
  rw [convertPost_valid w f ef st hn ha]
  rcases hca : w.cacheAvail with _ | _
  · have hget : get_cached_result w st.cache (w.fileHash f.content)
        (normalizeEngine ef) = .ok none := by
      simp [get_cached_result, hca]
    rw [afterValidation_miss w f _ st none hget rfl]
    obtain ⟨h1, h2⟩ := recompute_branch_not_hit w (normalizeEngine ef) w.safeName
      (w.fileHash f.content) _ _ rfl
    constructor
    · rw [h1]
      simp [hca]
    · intro r hr hcr
      rw [h2 r hr] at hcr
      cases hcr
  · rcases hgf : w.redisGetFail with _ | d
    · rcases hrg : redisGet st.cache
          ("pdf_convert:" ++ w.fileHash f.content ++ ":" ++ normalizeEngine ef)
          w.now with _ | c
      · have hget : get_cached_result w st.cache (w.fileHash f.content)
            (normalizeEngine ef) = .ok none := by
          simp [get_cached_result, hca, hgf, hrg]
        rw [afterValidation_miss w f _ st none hget rfl]
        obtain ⟨h1, h2⟩ := recompute_branch_not_hit w (normalizeEngine ef) w.safeName
          (w.fileHash f.content) _ _ rfl
        constructor
        · rw [h1]
          simp [hrg]
        · intro r hr hcr
          rw [h2 r hr] at hcr
          cases hcr
      · have hget : get_cached_result w st.cache (w.fileHash f.content)
            (normalizeEngine ef) = .ok (some c) := by
          simp [get_cached_result, hca, hgf, hrg]
        by_cases hm : c ∈ st.converted
        · have hhit : usableHit st.converted (some c) = some c := by
            simp [usableHit, hm]
          rw [afterValidation_hit w f _ st (some c) c (norm_mem_engine_usage ef) hget hhit]
          dsimp only
          constructor
          · simp [isCacheHit, hm]
          · intro r hr hcr
            cases hr
            exact hm
        · have hmiss : usableHit st.converted (some c) = none := by
            simp [usableHit, hm]
          rw [afterValidation_miss w f _ st (some c) hget hmiss]
          obtain ⟨h1, h2⟩ := recompute_branch_not_hit w (normalizeEngine ef) w.safeName
            (w.fileHash f.content) _ _ rfl
          constructor
          · rw [h1]
            simp only [hrg]
            constructor
            · intro h
              cases h
            · rintro ⟨_, _, c0, hc0, hm0⟩
              cases hc0
              exact absurd hm0 hm
          · intro r hr hcr
            rw [h2 r hr] at hcr
            cases hcr
    · have hget : get_cached_result w st.cache (w.fileHash f.content)
          (normalizeEngine ef) = .error (.cacheError d) := by
        simp [get_cached_result, hca, hgf]
      rw [afterValidation_getError w f _ st _ hget]
      dsimp only
      constructor
      · rw [isCacheHit_exceptClause]
        constructor
        · intro h
          cases h
        · rintro ⟨_, hnone, _⟩
          cases hnone
      · intro r hr
        exact absurd hr (exceptClause_not_ok _ r)

/-- Witness for `cache_hit_iff_live_entry_and_artifact`: caching on and
healthy, one live entry for the witness key whose artifact is present, so
the iff yields a cache hit. -/
theorem cache_hit_iff_live_entry_and_artifact_witness :
    allowed_file "report.pdf" = true ∧
    ((isCacheHit (convertPost wCacheLive ⟨some fileEx, some "standard"⟩ stCacheLive).1 = true ↔
       (wCacheLive.cacheAvail = true ∧ wCacheLive.redisGetFail = none ∧
        ∃ c, redisGet stCacheLive.cache
            ("pdf_convert:" ++ wCacheLive.fileHash fileEx.content ++ ":"
              ++ normalizeEngine (some "standard"))
            wCacheLive.now = some c ∧ c ∈ stCacheLive.converted)) ∧
     (∀ r, (convertPost wCacheLive ⟨some fileEx, some "standard"⟩ stCacheLive).1
          = Outcome.ok r → r.cached = true → r.filename ∈ stCacheLive.converted)) :=
  ⟨by decide,
    cache_hit_iff_live_entry_and_artifact wCacheLive fileEx (some "standard")
      stCacheLive (by decide) (by decide)⟩
